import Mathlib

/-!
# Verification of the AI voice / fraud detection pipeline

Shallow embedding of the core pipeline of the repository
(`backend/utils/fraud_detector.py`, `backend/models/audio_classifier.py`,
`backend/models/feature_extractor.py`, `backend/utils/audio_processor.py`,
`backend/app.py`) and proofs about it.

Numeric values are modelled as rationals (`ℚ`); Python's float constants
are written as the exact fractions they denote (`0.5 = 1 / 2`,
`0.05 = 1 / 20`, `1.3 = 13 / 10`, ...), and `round(x, 1)` is modelled as
rounding to the nearest tenth (tie behaviour differs from Python's bankers
rounding only at exact ties, which none of the verified properties depend
on). External collaborators (numpy reductions over library-produced
matrices, pydub / librosa decoders) enter as explicit parameters.
-/

namespace FraudAudio

/-! ## Shared numeric helpers -/

/-- Arithmetic mean of a list of rationals, modelling `np.mean`
(on the code paths verified here the list is always non-empty). -/
def mean (xs : List ℚ) : ℚ := xs.sum / xs.length

/-- Python `round(x, 1)`: round to one decimal place. -/
def round1 (q : ℚ) : ℚ := (round (q * 10) : ℤ) / 10

/-! ## `FraudDetector` (backend/utils/fraud_detector.py) -/

/-- The `audio_features` argument of `FraudDetector.analyze_risk` /
`_detect_urgency`. The code receives an arbitrary Python object and guards
the numeric slice computation with a bare `try/except`; we model the input
as either a numeric vector or a non-array value whose slicing raises. -/
inductive PyFeatures where
  | arr (xs : List ℚ)
  | invalid (desc : String)
deriving DecidableEq

/-- The energy read of `FraudDetector._detect_urgency`
(`np.mean(features[280:290]) if len(features) > 290 else 0.5`). -/
def energy_mean (xs : List ℚ) : ℚ :=
  if xs.length > 290 then mean ((xs.drop 280).take 10) else 1 / 2

/-- The spectral read of `FraudDetector._detect_urgency`
(`np.mean(features[40:45]) if len(features) > 45 else 0.5`). -/
def spectral_mean (xs : List ℚ) : ℚ :=
  if xs.length > 45 then mean ((xs.drop 40).take 5) else 1 / 2

/-- `FraudDetector._detect_urgency`: urgency heuristic
`energy * 0.5 + spectral * 0.02` clamped to [0,100]; the bare `except`
branch returns the neutral default 50. -/
def detect_urgency : PyFeatures → ℚ
  | .arr xs => min 100 (max 0 (energy_mean xs * (1 / 2) + spectral_mean xs * (1 / 50)))
  | .invalid _ => 50

/-- `FraudDetector._get_risk_level`. -/
def get_risk_level (score : ℚ) : String :=
  if score > 75 then "CRITICAL"
  else if score > 50 then "HIGH"
  else if score > 25 then "MEDIUM"
  else "LOW"

/-- `FraudDetector._generate_alerts`. -/
def generate_alerts (ai_risk urgency : ℚ) (keywords : List String) : List String :=
  let alerts : List String := []
  let alerts := if ai_risk > 85 then
      alerts ++ ["⚠️ HIGH RISK: Synthetic voice detected (Robocall)"] else alerts
  let alerts := if urgency > 75 then
      alerts ++ ["⚠️ THREAT: High urgency/pressure speech pattern detected"] else alerts
  let alerts := if keywords ≠ [] then
      alerts ++ ["⚠️ SECURITY ALERT: Suspicious keywords detected: " ++
        String.intercalate ", " keywords] else alerts
  if alerts = [] ∧ ai_risk < 20 then
    alerts ++ ["✅ Low Risk: Natural conversation detected"] else alerts

/-- The dictionary returned by `FraudDetector.analyze_risk`
(`metrics` sub-dictionary flattened into the three rounded fields). -/
structure RiskAssessment where
  risk_score : ℚ
  risk_level : String
  ai_probability : ℚ
  urgency_score : ℚ
  keyword_risk : ℚ
  alerts : List String
deriving DecidableEq

/-- `FraudDetector.analyze_risk` (weights 0.5 / 0.2 / 0.3 from
`self.weights`): weighted fusion of AI risk, urgency and keyword risk with
the 1.3x escalation capped at 100. -/
def analyze_risk (ai_confidence : ℚ) (audio_features : PyFeatures)
    (keywords_detected : List String) : RiskAssessment :=
  let ai_risk := ai_confidence * 100
  let urgency_score := detect_urgency audio_features
  let keyword_risk : ℚ := min 100 ((keywords_detected.length : ℚ) * 25)
  let total_risk :=
    ai_risk * (1 / 2) + urgency_score * (1 / 5) + keyword_risk * (3 / 10)
  let total_risk :=
    if keywords_detected ≠ [] ∧ (ai_risk > 50 ∨ urgency_score > 60) then
      min 100 (total_risk * (13 / 10))
    else total_risk
  { risk_score := round1 total_risk
    risk_level := get_risk_level total_risk
    ai_probability := round1 (ai_confidence * 100)
    urgency_score := round1 urgency_score
    keyword_risk := round1 keyword_risk
    alerts := generate_alerts ai_risk urgency_score keywords_detected }

/-! ## Explanation generator (backend/models/audio_classifier.py) -/

/-- The two classification labels produced by `VoiceDetectionModel.predict`
(`"AI_GENERATED" if predicted.item() == 0 else "HUMAN"`). -/
inductive Label where
  | AI_GENERATED
  | HUMAN
deriving DecidableEq

/-- Guarded read `features[0][40] if len(features[0]) > 40 else 0`
(spectral centroid position). -/
def centroid_read (f : List ℚ) : ℚ := if f.length > 40 then f.getD 40 0 else 0

/-- Guarded read `features[0][80] if len(features[0]) > 80 else 0`
(zero-crossing-rate position). -/
def zcr_read (f : List ℚ) : ℚ := if f.length > 80 then f.getD 80 0 else 0

/-- Guarded read `features[0][85] if len(features[0]) > 85 else 0`
(pitch-std position). -/
def pitch_std_read (f : List ℚ) : ℚ := if f.length > 85 then f.getD 85 0 else 0

/-- The `reasons` list built by `_generate_explanation` before the
no-rule-fired fallback is substituted: each firing rule appends its reason
string in program order (thresholds 2000, 0.05 = 1/20, 20, 0.9 = 9/10 for
AI_GENERATED; 50, 0.8 = 4/5 for HUMAN). -/
def explanation_reasons (features : List ℚ) (label : Label)
    (confidence : ℚ) : List String :=
  let spectral_centroid := centroid_read features
  let zcr := zcr_read features
  let pitch_std := pitch_std_read features
  let reasons : List String := []
  match label with
  | .AI_GENERATED =>
    let reasons := if spectral_centroid > 2000 then
        reasons ++ ["Synthetic spectral patterns detected"] else reasons
    let reasons := if zcr < 1 / 20 then
        reasons ++ ["Unnatural voice transitions"] else reasons
    let reasons := if pitch_std < 20 then
        reasons ++ ["Robotic pitch consistency"] else reasons
    if confidence > 9 / 10 then reasons ++ ["High AI likelihood"] else reasons
  | .HUMAN =>
    let reasons := if pitch_std > 50 then
        reasons ++ ["Natural pitch variations"] else reasons
    let reasons := reasons ++ ["Organic spectral characteristics"]
    if confidence > 4 / 5 then
      reasons ++ ["Strong human voice patterns"] else reasons

/-- Two-digit zero padding for the percent formatting. -/
def pad2 (n : Nat) : String := if n < 10 then "0" ++ toString n else toString n

/-- Percent formatting with two decimals, modelling the Python format spec
`.2%` applied to `confidence` (exact on the non-negative rationals the
callers supply; the message is only ever compared with the fixed rule
strings, never decomposed). -/
def pct2 (c : ℚ) : String :=
  let n : ℤ := round (c * 10000)
  toString (n / 100) ++ "." ++ pad2 (n % 100).toNat ++ "%"

/-- The fallback message `Model confidence: <pct>` appended when no rule
fired. -/
def confidenceMessage (c : ℚ) : String := "Model confidence: " ++ pct2 c

/-- The final `reasons` list of `_generate_explanation` after the fallback
substitution (`if not reasons: reasons.append(...)`). -/
def final_reasons (features : List ℚ) (label : Label)
    (confidence : ℚ) : List String :=
  let reasons := explanation_reasons features label confidence
  if reasons = [] then [confidenceMessage confidence] else reasons

/-- Python `"; ".join`. -/
def joinSemi : List String → String
  | [] => ""
  | [a] => a
  | a :: rest => a ++ "; " ++ joinSemi rest

/-- `VoiceDetectionModel._generate_explanation`: the joined reason string. -/
def generate_explanation (features : List ℚ) (label : Label)
    (confidence : ℚ) : String :=
  joinSemi (final_reasons features label confidence)

/-- Every reason string a rule can append. -/
def allReasonStrings : List String :=
  ["Synthetic spectral patterns detected", "Unnatural voice transitions",
   "Robotic pitch consistency", "High AI likelihood",
   "Natural pitch variations", "Organic spectral characteristics",
   "Strong human voice patterns"]

/-! ## Pitch aggregation of `AudioFeatureExtractor.extract_features`
(backend/models/feature_extractor.py, the `piptrack` consumer loop).
`pitches` / `magnitudes` are the matrices returned by
`librosa.piptrack` (rows = frequency bins, columns = analysis frames),
taken here as inputs since they are produced by the external library. -/

/-- `np.argmax`: index of the first maximum of a list (the matrices the
code indexes are non-empty). -/
def argmaxIdx (xs : List ℚ) : Nat :=
  (xs.enum.foldl (fun best p => if p.2 > best.2 then p else best)
    (0, xs.headD 0)).1

/-- Frame count `pitches.shape[1]` (numpy rows all share one length). -/
def numCols (m : List (List ℚ)) : Nat := (m.headD []).length

/-- One iteration of the loop: `index = magnitudes[:, t].argmax();
pitch = pitches[index, t]`. -/
def selectedPitch (pitches magnitudes : List (List ℚ)) (t : Nat) : ℚ :=
  (pitches.getD (argmaxIdx (magnitudes.map (fun row => row.getD t 0))) []).getD t 0

/-- The `pitch_values` list: the selected pitch of every frame where it is
strictly positive, in frame order. -/
def pitchValues (pitches magnitudes : List (List ℚ)) : List ℚ :=
  (List.range (numCols pitches)).filterMap (fun t =>
    let p := selectedPitch pitches magnitudes t
    if p > 0 then some p else none)

/-- `np.min` over a non-empty list. -/
def listMin (xs : List ℚ) : ℚ := xs.foldl min (xs.headD 0)

/-- `np.max` over a non-empty list. -/
def listMax (xs : List ℚ) : ℚ := xs.foldl max (xs.headD 0)

/-- The four pitch aggregate features `(pitch_mean, pitch_std, pitch_min,
pitch_max)` of `extract_features`; `std` is the external `np.std` numeric
reduction, passed as a parameter (the degenerate branch never calls it). -/
def pitch_block (std : List ℚ → ℚ)
    (pitches magnitudes : List (List ℚ)) : ℚ × ℚ × ℚ × ℚ :=
  let pv := pitchValues pitches magnitudes
  if 0 < pv.length then (mean pv, std pv, listMin pv, listMax pv)
  else (0, 0, 0, 0)

/-! ## Decoder fallback chain (backend/utils/audio_processor.py,
`AudioProcessor.decode_base64_to_audio`). The individual decode attempts
call external libraries (pydub / librosa), so they appear as `Except`
valued oracles keyed to the one request being decoded. -/

/-- A pydub `AudioSegment`. -/
structure AudioSeg where
  channels : Nat
  data : List ℚ
deriving DecidableEq

/-- Outcomes of the external decode attempts for one base64 payload:
`b64` = `base64.b64decode`, the four `AudioSegment.from_file` attempts
(format mp3 / wav / webm / auto-detect), the direct `librosa.load`
attempt, and `loadWav` = the wav-export-then-`librosa.load` post-pass. -/
structure DecodeAttempts where
  b64 : Except String Unit
  mp3 : Except String AudioSeg
  wav : Except String AudioSeg
  webm : Except String AudioSeg
  auto : Except String AudioSeg
  librosa : Except String (List ℚ)
  loadWav : AudioSeg → Except String (List ℚ)

/-- `audio.set_channels(1) if audio.channels > 1`. -/
def set_channels_mono (a : AudioSeg) : AudioSeg :=
  if a.channels > 1 then { a with channels := 1 } else a

/-- The mono-conversion / wav-export / re-load / empty-check tail applied
to a successful pydub decode. -/
def postProcess (d : DecodeAttempts) (audio : AudioSeg) : Except String (List ℚ) :=
  let audio := set_channels_mono audio
  match d.loadWav audio with
  | .error e => .error e
  | .ok y => if y.length = 0 then .error "Decoded audio is empty" else .ok y

/-- The body of the outer `try` of `decode_base64_to_audio`: the ordered
fallback chain MP3 → WAV → WebM → auto-detect → direct librosa load, with
the error of every failed attempt accumulated into `errors` and raised as
one `ValueError` when all five attempts fail (the direct librosa success
returns early, skipping the post-pass). -/
def decode_body (d : DecodeAttempts) : Except String (List ℚ) :=
  match d.mp3 with
  | .ok audio => postProcess d audio
  | .error e1 =>
    match d.wav with
    | .ok audio => postProcess d audio
    | .error e2 =>
      match d.webm with
      | .ok audio => postProcess d audio
      | .error e3 =>
        match d.auto with
        | .ok audio => postProcess d audio
        | .error e4 =>
          match d.librosa with
          | .ok y => .ok y
          | .error e5 =>
            .error ("Could not decode audio. Tried formats: " ++
              String.intercalate ", "
                ["MP3: " ++ e1, "WAV: " ++ e2, "WebM: " ++ e3,
                 "Auto-detect: " ++ e4, "Librosa: " ++ e5])

/-- `AudioProcessor.decode_base64_to_audio`: the outer `except` wraps every
failure into one `ValueError("Error processing audio: ...")`. -/
def decode_base64_to_audio (d : DecodeAttempts) : Except String (List ℚ) :=
  match d.b64 with
  | .error e => .error ("Error processing audio: " ++ e)
  | .ok _ =>
    match decode_body d with
    | .ok y => .ok y
    | .error e => .error ("Error processing audio: " ++ e)

/-- Concrete oracle where every decode attempt fails. -/
def decodeAllFail : DecodeAttempts :=
  { b64 := .ok (), mp3 := .error "m1", wav := .error "w2", webm := .error "b3",
    auto := .error "d4", librosa := .error "l5",
    loadWav := fun _ => .error "unused" }

/-- Concrete oracle where only pydub auto-detection succeeds (e.g. an OGG
payload none of the named formats accept). -/
def decodeAutoOk : DecodeAttempts :=
  { b64 := .ok (), mp3 := .error "m1", wav := .error "w2", webm := .error "b3",
    auto := .ok ⟨2, [1]⟩, librosa := .error "l5",
    loadWav := fun a => .ok a.data }

/-! ## Endpoint glue (backend/app.py) -/

/-- The names bound at module level in `backend/app.py` (imports, the
FastAPI app, and the objects initialised at startup). The classifier
handle is bound as `voice_model`; no name `model` is ever bound. -/
def app_module_globals : List String :=
  ["FastAPI", "HTTPException", "Depends", "CORSMiddleware", "BaseModel",
   "Field", "Literal", "os", "load_dotenv", "uvicorn", "io", "np",
   "VoiceDetectionModel", "AudioFeatureExtractor", "AudioProcessor",
   "verify_api_key", "FraudDetector", "app", "MODEL_PATH", "voice_model",
   "feature_extractor", "audio_processor", "fraud_detector",
   "VoiceDetectionRequest", "VoiceDetectionResponse", "ErrorResponse",
   "root", "detect_voice", "analyze_call", "health_check"]

/-- Python global-name resolution inside `detect_voice`: a name not bound
locally and absent from the module globals raises `NameError` (message
modelled without the quotation marks Python puts around the name). -/
def lookupGlobal (n : String) : Except String Unit :=
  if n ∈ app_module_globals then .ok ()
  else .error ("NameError: name " ++ n ++ " is not defined")

/-- Outcome of the `/api/voice-detection` handler from step 4 on: either a
response body or an `HTTPException` with a status code. -/
inductive HttpOutcome where
  | ok (label : Label) (confidence : ℚ) (explanation : String)
  | httpError (status : Nat) (detail : String)
deriving DecidableEq

/-- Steps 4-5 of `detect_voice` (app.py lines 120-137), entered after
decode / validate / extract succeeded: the code evaluates `model.model`,
so it first resolves the name `model`; on `NameError` the handler's
`except Exception` turns it into HTTP 500. `loaded` is the would-be
loaded-state, `predictResult` the would-be `predict` output, `demoChoice`
/ `demoConf` the would-be `random` draws of the demo branch
(`random.uniform(0.75, 0.95)`). -/
def detect_voice_predict_step (loaded : Bool) (predictResult : Label × ℚ × String)
    (demoChoice : Label) (demoConf : ℚ) : HttpOutcome :=
  match lookupGlobal "model" with
  | .error e => .httpError 500 ("Internal server error: " ++ e)
  | .ok _ =>
    if loaded then
      .ok predictResult.1 predictResult.2.1 predictResult.2.2
    else
      .ok demoChoice demoConf "Demo mode - model not trained yet"

/-- Step 4 of `analyze_call` (app.py lines 178-187): with no loaded model
the demo branch substitutes the fixed classification AI_GENERATED at
confidence 0.85 = 17/20 without calling `predict`. -/
def analyze_call_ai_step (modelLoaded : Bool)
    (predictResult : Label × ℚ) : Label × ℚ :=
  if modelLoaded then predictResult else (.AI_GENERATED, 17 / 20)

/-- The `mock_features` vector of `analyze_call` (app.py lines 190-193):
`np.zeros(425)`, with index 40 set to 3000 when the classification is
AI_GENERATED. -/
def mock_features (label : Label) : List ℚ :=
  let m := List.replicate 425 (0 : ℚ)
  if label = .AI_GENERATED then m.set 40 3000 else m

/-- Step 5 of `analyze_call` (app.py lines 189-201): risk scoring is
invoked on the synthetic `mock_features` vector, not on the `extracted`
feature vector computed from the audio (which stays unused here). -/
def analyze_call_risk (label : Label) (confidence : ℚ) (extracted : List ℚ)
    (keywords : List String) : RiskAssessment :=
  let ai_prob := if label = .AI_GENERATED then confidence else 1 - confidence
  analyze_risk ai_prob (.arr (mock_features label)) keywords

/-! ## Helper lemmas -/

lemma detect_urgency_nonneg (f : PyFeatures) : 0 ≤ detect_urgency f := by
  cases f with
  | arr xs =>
    simp only [detect_urgency]
    exact le_min (by norm_num) (le_max_left 0 _)
  | invalid d => norm_num [detect_urgency]

lemma detect_urgency_le_100 (f : PyFeatures) : detect_urgency f ≤ 100 := by
  cases f with
  | arr xs => exact min_le_left _ _
  | invalid d => norm_num [detect_urgency]

lemma round1_mono {a b : ℚ} (h : a ≤ b) : round1 a ≤ round1 b := by
  unfold round1
  have h10 : a * 10 + 1 / 2 ≤ b * 10 + 1 / 2 := by linarith
  have hr : round (a * 10) ≤ round (b * 10) := by
    rw [round_eq, round_eq]
    exact Int.floor_le_floor h10
  exact div_le_div_of_nonneg_right (by exact_mod_cast hr) (by norm_num)

lemma round1_100 : round1 100 = 100 := by
  unfold round1
  norm_num [round_eq]

lemma round1_0 : round1 0 = 0 := by
  unfold round1
  norm_num [round_eq]

lemma keyword_risk_nonneg (kws : List String) :
    0 ≤ min (100 : ℚ) ((kws.length : ℚ) * 25) :=
  le_min (by norm_num) (by positivity)

lemma get_risk_level_mem (t : ℚ) :
    get_risk_level t ∈ ["LOW", "MEDIUM", "HIGH", "CRITICAL"] := by
  unfold get_risk_level
  split_ifs <;> simp

lemma str_data_append (a b : String) : (a ++ b).data = a.data ++ b.data := by
  cases a; cases b; rfl

lemma confidenceMessage_head (c : ℚ) :
    (confidenceMessage c).data.head? = some 'M' := by
  unfold confidenceMessage
  rw [str_data_append]
  rfl

lemma explanation_reasons_subset (f : List ℚ) (l : Label) (c : ℚ) :
    ∀ r ∈ explanation_reasons f l c, r ∈ allReasonStrings := by
  intro r hr
  unfold explanation_reasons at hr
  cases l <;> simp only [] at hr <;> split_ifs at hr <;>
    simp_all [allReasonStrings] <;> tauto

lemma confidenceMessage_not_reason (c : ℚ) :
    confidenceMessage c ∉ allReasonStrings := by
  intro h
  have hall : ∀ r ∈ allReasonStrings, r.data.head? ≠ some 'M' := by decide
  exact hall _ h (confidenceMessage_head c)

/-! ## Claim theorems -/

/-- C2: the risk level is CRITICAL exactly when the total exceeds 75, HIGH
on (50,75], MEDIUM on (25,50], LOW at or below 25; in particular a total of
exactly 75 maps to HIGH and 75.1 maps to CRITICAL
(`FraudDetector._get_risk_level`). -/
theorem risk_level_thresholds (t : ℚ) :
    (get_risk_level t = "CRITICAL" ↔ 75 < t) ∧
    (get_risk_level t = "HIGH" ↔ 50 < t ∧ t ≤ 75) ∧
    (get_risk_level t = "MEDIUM" ↔ 25 < t ∧ t ≤ 50) ∧
    (get_risk_level t = "LOW" ↔ t ≤ 25) ∧
    get_risk_level 75 = "HIGH" ∧ get_risk_level (751 / 10 : ℚ) = "CRITICAL" := by
  refine ⟨?_, ?_, ?_, ?_, by norm_num [get_risk_level], by norm_num [get_risk_level]⟩ <;>
    · unfold get_risk_level
      split_ifs with h1 h2 h3 <;> simp_all <;> intros <;> linarith

/-- C1: whenever keywords are present and either the AI risk exceeds 50 or
the urgency exceeds 60, `analyze_risk` returns the weighted total escalated
by 1.3 and capped at 100, rounded to one decimal; for `ai_probability = 1`
with keywords `["otp", "password"]` the keyword risk is 50, the escalation
branch is taken, and the result is capped at (hence at most) 100. -/
theorem score_escalation (p : ℚ) (f : PyFeatures) (kws : List String)
    (h0 : 0 ≤ p) (h1 : p ≤ 1) (hk : kws ≠ [])
    (hesc : p * 100 > 50 ∨ detect_urgency f > 60) :
    (analyze_risk p f kws).risk_score =
      round1 (min 100 ((p * 100 * (1 / 2) + detect_urgency f * (1 / 5) +
        min 100 ((kws.length : ℚ) * 25) * (3 / 10)) * (13 / 10))) ∧
    (analyze_risk 1 f ["otp", "password"]).keyword_risk = 50 ∧
    (analyze_risk 1 f ["otp", "password"]).risk_score =
      round1 (min 100 ((1 * 100 * (1 / 2) + detect_urgency f * (1 / 5) +
        50 * (3 / 10)) * (13 / 10))) ∧
    (analyze_risk 1 f ["otp", "password"]).risk_score ≤ 100 := by
  refine ⟨?_, ?_, ?_, ?_⟩
  · simp only [analyze_risk]
    rw [if_pos ⟨hk, hesc⟩]
  · simp only [analyze_risk]
    norm_num [round1, round_eq]
  · simp only [analyze_risk]
    rw [if_pos ⟨by simp, Or.inl (by norm_num)⟩]
    norm_num
  · simp only [analyze_risk]
    rw [if_pos ⟨by simp, Or.inl (by norm_num)⟩]
    calc round1 (min 100 _) ≤ round1 100 := round1_mono (min_le_left _ _)
      _ = 100 := round1_100

/-- Witness for `score_escalation` at `ai_probability = 1`, an empty
feature vector and keywords `["otp", "password"]`. -/
theorem score_escalation_witness :
    (analyze_risk 1 (PyFeatures.arr []) ["otp", "password"]).risk_score =
      round1 (min 100 ((1 * 100 * (1 / 2) +
        detect_urgency (PyFeatures.arr []) * (1 / 5) +
        min 100 (((["otp", "password"] : List String).length : ℚ) * 25) *
          (3 / 10)) * (13 / 10))) ∧
    (analyze_risk 1 (PyFeatures.arr []) ["otp", "password"]).keyword_risk = 50 ∧
    (analyze_risk 1 (PyFeatures.arr []) ["otp", "password"]).risk_score ≤ 100 := by
  have h := score_escalation 1 (PyFeatures.arr []) ["otp", "password"]
    (by norm_num) (by norm_num) (by simp) (Or.inl (by norm_num))
  exact ⟨h.1, h.2.1, h.2.2.2⟩

/-- C3: for `ai_probability ∈ [0,1]`, any feature input and any keyword
list, the returned risk score lies in `[0, 100]` and the risk level is one
of LOW / MEDIUM / HIGH / CRITICAL. -/
theorem risk_assessment_range (p : ℚ) (f : PyFeatures) (kws : List String)
    (h0 : 0 ≤ p) (h1 : p ≤ 1) :
    0 ≤ (analyze_risk p f kws).risk_score ∧
    (analyze_risk p f kws).risk_score ≤ 100 ∧
    (analyze_risk p f kws).risk_level ∈ ["LOW", "MEDIUM", "HIGH", "CRITICAL"] := by
  have hu0 := detect_urgency_nonneg f
  have hu1 := detect_urgency_le_100 f
  have hk0 := keyword_risk_nonneg kws
  have hk1 : min (100 : ℚ) ((kws.length : ℚ) * 25) ≤ 100 := min_le_left _ _
  have htot0 : 0 ≤ p * 100 * (1 / 2) + detect_urgency f * (1 / 5) +
      min 100 ((kws.length : ℚ) * 25) * (3 / 10) := by nlinarith
  have htot1 : p * 100 * (1 / 2) + detect_urgency f * (1 / 5) +
      min 100 ((kws.length : ℚ) * 25) * (3 / 10) ≤ 100 := by nlinarith
  have hesc0 : 0 ≤ min (100 : ℚ) ((p * 100 * (1 / 2) + detect_urgency f * (1 / 5) +
      min 100 ((kws.length : ℚ) * 25) * (3 / 10)) * (13 / 10)) :=
    le_min (by norm_num) (by nlinarith)
  simp only [analyze_risk]
  split_ifs with hcond
  · refine ⟨?_, ?_, get_risk_level_mem _⟩
    · calc (0 : ℚ) = round1 0 := round1_0.symm
        _ ≤ _ := round1_mono hesc0
    · calc round1 _ ≤ round1 100 := round1_mono (min_le_left _ _)
        _ = 100 := round1_100
  · refine ⟨?_, ?_, get_risk_level_mem _⟩
    · calc (0 : ℚ) = round1 0 := round1_0.symm
        _ ≤ _ := round1_mono htot0
    · calc round1 _ ≤ round1 100 := round1_mono htot1
        _ = 100 := round1_100

/-- Witness for `risk_assessment_range` at `ai_probability = 1/2`, an
empty feature vector and no keywords. -/
theorem risk_assessment_range_witness :
    0 ≤ (analyze_risk (1 / 2) (PyFeatures.arr []) []).risk_score ∧
    (analyze_risk (1 / 2) (PyFeatures.arr []) []).risk_score ≤ 100 ∧
    (analyze_risk (1 / 2) (PyFeatures.arr []) []).risk_level ∈
      ["LOW", "MEDIUM", "HIGH", "CRITICAL"] :=
  risk_assessment_range (1 / 2) (PyFeatures.arr []) [] (by norm_num) (by norm_num)

/-- C7: the urgency score equals the clamp to `[0,100]` of
`mean(energy block) * 0.5 + mean(spectral block) * 0.02`; on a failing
computation (non-array input) the detector returns the neutral default 50,
and `analyze_risk` then still completes with that default as its urgency
metric rather than failing. -/
theorem urgency_clamped_with_default :
    (∀ xs : List ℚ, detect_urgency (.arr xs) =
      min 100 (max 0 (energy_mean xs * (1 / 2) + spectral_mean xs * (1 / 50)))) ∧
    (∀ d : String, detect_urgency (.invalid d) = 50) ∧
    (∀ (p : ℚ) (d : String) (kws : List String),
      (analyze_risk p (.invalid d) kws).urgency_score = 50) := by
  refine ⟨fun xs => rfl, fun d => rfl, fun p d kws => ?_⟩
  simp only [analyze_risk, detect_urgency]
  norm_num [round1, round_eq]

/-- C5: the AI_GENERATED rules fire in the fixed order centroid / ZCR /
pitch-std / confidence, every firing rule appending its reason; the final
output is the bare confidence message exactly when no rule fired, and
otherwise the ordered non-deduplicated fired-reason list joined with
semicolons. -/
theorem explanation_rule_order (f : List ℚ) (c : ℚ) :
    explanation_reasons f .AI_GENERATED c =
      ((if centroid_read f > 2000 then ["Synthetic spectral patterns detected"] else []) ++
       (if zcr_read f < 1 / 20 then ["Unnatural voice transitions"] else []) ++
       (if pitch_std_read f < 20 then ["Robotic pitch consistency"] else []) ++
       (if c > 9 / 10 then ["High AI likelihood"] else [])) ∧
    (∀ l, final_reasons f l c = [confidenceMessage c] ↔
      explanation_reasons f l c = []) ∧
    (∀ l, generate_explanation f l c = joinSemi (final_reasons f l c)) := by
  refine ⟨?_, fun l => ⟨fun h => ?_, fun h => by simp [final_reasons, h]⟩, fun l => rfl⟩
  · simp only [explanation_reasons]
    split_ifs <;> simp
  · by_contra hne
    have hfr : final_reasons f l c = explanation_reasons f l c := by
      simp [final_reasons, hne]
    have hmem : confidenceMessage c ∈ explanation_reasons f l c := by
      rw [← hfr, h]; simp
    exact confidenceMessage_not_reason c
      (explanation_reasons_subset f l c _ hmem)

/-- C10: a HUMAN classification always yields the reason
`Organic spectral characteristics` and a non-empty reason list, so the
bare-confidence fallback is reachable only for AI_GENERATED with
centroid ≤ 2000, ZCR ≥ 0.05, pitch-std ≥ 20 and confidence ≤ 0.9. -/
theorem human_explanation_nonempty (f : List ℚ) (c : ℚ) :
    ("Organic spectral characteristics" ∈ explanation_reasons f .HUMAN c ∧
      explanation_reasons f .HUMAN c ≠ []) ∧
    (∀ l, explanation_reasons f l c = [] →
      l = .AI_GENERATED ∧ centroid_read f ≤ 2000 ∧ 1 / 20 ≤ zcr_read f ∧
        20 ≤ pitch_std_read f ∧ c ≤ 9 / 10) := by
  constructor
  · constructor <;>
      · simp only [explanation_reasons]
        split_ifs <;> simp
  · intro l h
    cases l with
    | HUMAN =>
      exfalso
      simp only [explanation_reasons] at h
      split_ifs at h <;> simp at h
    | AI_GENERATED =>
      refine ⟨rfl, ?_⟩
      simp only [explanation_reasons] at h
      split_ifs at h <;> simp at h
      exact ⟨not_lt.mp ‹¬centroid_read f > 2000›,
        not_lt.mp ‹¬zcr_read f < 1 / 20›,
        not_lt.mp ‹¬pitch_std_read f < 20›,
        not_lt.mp ‹¬c > 9 / 10›⟩

/-- Witness for `human_explanation_nonempty`: a concrete vector of length
86 holding 20 everywhere (so centroid 20, ZCR 20, pitch-std 20) with
confidence 1/2 fires no AI rule, and the theorem instantiates there. -/
theorem human_explanation_nonempty_witness :
    Label.AI_GENERATED = Label.AI_GENERATED ∧
      centroid_read (List.replicate 86 (20 : ℚ)) ≤ 2000 ∧
      1 / 20 ≤ zcr_read (List.replicate 86 (20 : ℚ)) ∧
      20 ≤ pitch_std_read (List.replicate 86 (20 : ℚ)) ∧ (1 / 2 : ℚ) ≤ 9 / 10 :=
  (human_explanation_nonempty (List.replicate 86 (20 : ℚ)) (1 / 2)).2
    .AI_GENERATED (by norm_num [explanation_reasons, centroid_read, zcr_read,
      pitch_std_read])

/-- C6: when no frame carries a strictly positive selected pitch, the
`pitch_values` list is empty and the four aggregates `(pitch_mean,
pitch_std, pitch_min, pitch_max)` are all exactly 0 (for any external
`std` reduction), without any failure. -/
theorem silent_pitch_features (std : List ℚ → ℚ)
    (pitches magnitudes : List (List ℚ))
    (h : ∀ t, t < numCols pitches → selectedPitch pitches magnitudes t ≤ 0) :
    pitchValues pitches magnitudes = [] ∧
    pitch_block std pitches magnitudes = (0, 0, 0, 0) := by
  have hpv : pitchValues pitches magnitudes = [] := by
    unfold pitchValues
    rw [List.filterMap_eq_nil_iff]
    intro t ht
    simp only []
    rw [if_neg (not_lt.mpr (h t (List.mem_range.mp ht)))]
  refine ⟨hpv, ?_⟩
  unfold pitch_block
  rw [hpv]
  simp

/-- Witness for `silent_pitch_features`: the all-zero 2×2 pitch and
magnitude matrices an all-silent buffer produces, with `np.std`
instantiated by any concrete reduction (here `mean`). -/
theorem silent_pitch_features_witness :
    pitchValues ([[0, 0], [0, 0]] : List (List ℚ)) [[0, 0], [0, 0]] = [] ∧
    pitch_block mean ([[0, 0], [0, 0]] : List (List ℚ)) [[0, 0], [0, 0]] =
      (0, 0, 0, 0) :=
  silent_pitch_features mean [[0, 0], [0, 0]] [[0, 0], [0, 0]] (by decide)

/-- C8: the decoder tries the container formats in the fixed order MP3,
WAV, WebM, pydub auto-detection, then direct librosa loading; when every
attempt fails it raises one error whose message aggregates the reason of
every attempted format, and when only auto-detection succeeds (e.g. an OGG
payload) its decoded segment is the one post-processed and returned. -/
theorem decode_fallback_chain (d : DecodeAttempts) (e1 e2 e3 e4 e5 : String) :
    (d.b64 = .ok () → d.mp3 = .error e1 → d.wav = .error e2 →
      d.webm = .error e3 → d.auto = .error e4 → d.librosa = .error e5 →
      decode_base64_to_audio d =
        .error ("Error processing audio: Could not decode audio. Tried formats: " ++
          String.intercalate ", "
            ["MP3: " ++ e1, "WAV: " ++ e2, "WebM: " ++ e3,
             "Auto-detect: " ++ e4, "Librosa: " ++ e5])) ∧
    (∀ seg y, d.b64 = .ok () → d.mp3 = .error e1 → d.wav = .error e2 →
      d.webm = .error e3 → d.auto = .ok seg → postProcess d seg = .ok y →
      decode_base64_to_audio d = .ok y) := by
  constructor
  · intro hb h1 h2 h3 h4 h5
    unfold decode_base64_to_audio decode_body
    rw [hb, h1, h2, h3, h4, h5]
    rfl
  · intro seg y hb h1 h2 h3 h4 hpost
    unfold decode_base64_to_audio decode_body
    rw [hb, h1, h2, h3, h4]
    simp [hpost]

/-- Witness for `decode_fallback_chain` on the two concrete oracles: all
attempts failing yields the aggregated message, and an auto-detect-only
success yields its post-processed audio. -/
theorem decode_fallback_chain_witness :
    decode_base64_to_audio decodeAllFail =
      .error ("Error processing audio: Could not decode audio. Tried formats: " ++
        "MP3: m1, WAV: w2, WebM: b3, Auto-detect: d4, Librosa: l5") ∧
    decode_base64_to_audio decodeAutoOk = .ok [1] := by
  constructor
  · have h := (decode_fallback_chain decodeAllFail "m1" "w2" "b3" "d4" "l5").1
      rfl rfl rfl rfl rfl rfl
    rw [h]
    rfl
  · exact (decode_fallback_chain decodeAutoOk "m1" "w2" "b3" "d4" "l5").2
      ⟨2, [1]⟩ [1] rfl rfl rfl rfl rfl rfl

/-- C4 (code bug): with no model loaded, `detect_voice` does not return
the demo-labeled simulated response: evaluating `model.model` raises
`NameError` (`model` is not a module global; the handle is `voice_model`),
which the handler surfaces as HTTP 500 — for every would-be predict result
and demo draw, and regardless of the loaded-state. By contrast
`analyze_call`'s demo branch does substitute AI_GENERATED at confidence
0.85, inside the documented simulated range [0.75, 0.95]. -/
theorem detect_voice_demo_raises (loaded : Bool) (pr : Label × ℚ × String)
    (dc : Label) (dconf : ℚ) :
    detect_voice_predict_step loaded pr dc dconf =
      .httpError 500 "Internal server error: NameError: name model is not defined" ∧
    analyze_call_ai_step false (pr.1, pr.2.1) = (.AI_GENERATED, 17 / 20) ∧
    (3 / 4 : ℚ) ≤ 17 / 20 ∧ (17 / 20 : ℚ) ≤ 19 / 20 := by
  refine ⟨rfl, rfl, by norm_num, by norm_num⟩

/-- C9 counterexample: in the AI_GENERATED case the vector handed to risk
scoring is not the all-zero vector — index 40 holds 3000. -/
theorem mock_vector_not_all_zero :
    mock_features .AI_GENERATED ≠ List.replicate 425 (0 : ℚ) ∧
    (mock_features .AI_GENERATED).getD 40 0 = 3000 := by
  exact ⟨by decide, by decide⟩

/-- C9 (amended): the vector passed to `analyze_risk` in the combined
`analyze_call` path is the synthetic `mock_features` vector — all zeros
except index 40 set to 3000 when the classification is AI_GENERATED — and
is independent of the feature vector extracted from the audio. -/
theorem analyze_call_mock_vector (label : Label) (conf : ℚ)
    (f1 f2 : List ℚ) (kws : List String) :
    analyze_call_risk label conf f1 kws = analyze_call_risk label conf f2 kws ∧
    mock_features .HUMAN = List.replicate 425 0 ∧
    mock_features .AI_GENERATED = (List.replicate 425 (0 : ℚ)).set 40 3000 :=
  ⟨rfl, rfl, rfl⟩

end FraudAudio
